import Mathlib

/-!
Verification development for the `hardware` instrument-control repository.

The definitions below are a shallow embedding of the Python code:

* `hardware/gyros.py` — the `Gyro` class (tombstone runs, the data-collector
  thread `detector`, the Allan-deviation convergence checker `adev_checker`,
  `get_scale_factor`, `autophase`, `get_arw`) and `StoppableThread`.
* `hardware/rotation_stages.py` — the `NSC_A1` rotation stage (`cw`, `ccw`).
* `hardware/lock_in_amplifiers.py` — the `SRS_SR844` phase setter.
* `hardware/function_generators.py` — the `Agilent_33250A` frequency and
  duty-cycle setters.
* `hardware/data_acquisition_units.py` — `NI_9215.read` and the chunk
  produced by `FOG_DAQ_Task.run`.

Python numbers are modelled by `ℚ` (or `ℝ` where transcendental functions
appear), optional arguments by `Option ℚ` with Python truthiness, raised
exceptions by `Except`, and the thread interleavings by explicit observation
sequences.
-/

namespace Hardware

/-- Python truthiness of an optional numeric argument: `None` and `0` are
falsy, every other number is truthy. -/
def pyTruthy : Option ℚ → Bool
  | none => false
  | some x => decide (x ≠ 0)

/-- Arithmetic mean of a list, `sum / len`; the empty list gives `0`
(division by zero). Models `numpy.mean`. -/
def mean {α : Type} [DivisionRing α] (l : List α) : α :=
  l.sum / (l.length : α)

/-- Python `max` over a list of rationals (`max(xs)`); junk value `0` on the
empty list, on which the Python call would raise instead. -/
def pymax : List ℚ → ℚ
  | [] => 0
  | x :: xs => xs.foldl max x

/-! ## rotation_stages.py — NSC_A1 -/

/-- The request a rotation command issues to the stage server: the URL route,
the angle argument interpolated into the route, and whether the HTTP GET is
run on a background thread. -/
structure RotRequest where
  route : String
  arg : ℚ
  background : Bool
deriving DecidableEq, Repr

namespace NSC_A1

/-- Model of `NSC_A1.cw(val, background)`: issues GET `/rot/cw/<val>`,
either in a background thread or synchronously. -/
def cw (val : ℚ) (background : Bool) : RotRequest :=
  ⟨"/rot/cw/", val, background⟩

/-- Model of `NSC_A1.ccw(val, background)`: the source body is exactly
`self.cw(-val, background)`. -/
def ccw (val : ℚ) (background : Bool) : RotRequest :=
  cw (-val) background

end NSC_A1

/-! ## lock_in_amplifiers.py and function_generators.py — range-checked setters

Each setter is modelled as `Except String ℚ`: `.error msg` is a raised
`ValueError` (no command written to the instrument), `.ok v` means the
instrument write command carrying `v` was issued. -/

namespace SRS_SR844

/-- Model of the `SRS_SR844.phase` setter: rejects values outside
[-180, 180] degrees, otherwise writes `PHAS <val>`. -/
def phase_set (val : ℚ) : Except String ℚ :=
  if val > 180 ∨ val < -180 then
    .error ("Phase must be between -180 and 180 degrees")
  else
    .ok val

end SRS_SR844

namespace Agilent_33250A

/-- Model of the `Agilent_33250A.frequency` setter: the waveform argument is
the value the instrument reports for `FUNC?`; range checks follow the vendor
manual, otherwise `FREQ <val>` is written. -/
def frequency_set (waveform : String) (val : ℚ) : Except String ℚ :=
  if val < 1 / 1000000 then
    .error ("Minimum frequency is 1µHz")
  else if (waveform = "SIN" ∨ waveform = "SQU") ∧ val > 80000000 then
    .error ("Max frequency is 80 MHz for " ++ waveform ++ " waves")
  else if waveform = "PULS" ∧ (val < 500 / 1000000 ∨ val > 50000000) then
    .error ("Frequency must be between 500 µHz and 50 MHz for pulse waves")
  else
    .ok val

/-- Model of the `Agilent_33250A.duty_cycle` setter: rejects values outside
[0, 100] percent, otherwise writes the duty-cycle command. -/
def duty_cycle_set (val : ℚ) : Except String ℚ :=
  if val > 100 ∨ val < 0 then
    .error ("Invalid duty cycle value given")
  else
    .ok val

end Agilent_33250A

/-! ## gyros.py — Gyro.tombstone -/

namespace Gyro

/-- The two background threads an asynchronous tombstone run starts, with the
arguments they are given. -/
inductive ThreadSpec where
  | detectorThread (rate maxDuration : ℚ)
  | adevCheckerThread
deriving DecidableEq, Repr

/-- What a call to `Gyro.tombstone` does after calibration: either one
synchronous blocking `daq.read(duration, rate)` on the calling thread
returning a completed record, or an immediate return of an open-ended record
whose buffer holds `bufLenNaN` NaN samples, together with the background
threads started. -/
inductive TombstoneCall where
  | sync (readDuration : ℚ) (rateArg : Option ℚ)
  | async (bufLenNaN : ℚ) (rate : ℚ) (maxDuration : ℚ) (threads : List ThreadSpec)
deriving DecidableEq, Repr

/-- The duration computed at the top of `Gyro.tombstone`: starts at `0` and
adds `seconds`, `minutes * 60`, `hours * 3600` under Python truthiness. -/
def tombstone_duration (seconds minutes hours : Option ℚ) : ℚ :=
  (if pyTruthy seconds then seconds.getD 0 else 0)
    + (if pyTruthy minutes then minutes.getD 0 * 60 else 0)
    + (if pyTruthy hours then hours.getD 0 * 3600 else 0)

/-- Model of the acquisition part of `Gyro.tombstone`: a truthy (nonzero)
duration runs one synchronous `daq.read(duration, rate)`; otherwise the run
is asynchronous with `max_duration` defaulting to `24*60*60` and `rate` to
`10`, a buffer of `max_duration * rate` NaN samples, and two started threads:
the data collector and the Allan-deviation checker. -/
def tombstone (seconds minutes hours rate max_duration : Option ℚ) : TombstoneCall :=
  let duration := tombstone_duration seconds minutes hours
  if duration ≠ 0 then
    .sync duration rate
  else
    let md := if pyTruthy max_duration then max_duration.getD 0 else 24 * 60 * 60
    let r := if pyTruthy rate then rate.getD 0 else 10
    .async (md * r) r md [.detectorThread r md, .adevCheckerThread]

/-! ## gyros.py — Gyro.get_arw -/

/-- A Python runtime error raised while executing a method body. -/
inductive PyRuntimeError where
  | nameError (name : String)
deriving DecidableEq, Repr

/-- Model of the tail of `Gyro.get_arw` after `daq.read` returned `data`.
The external `allantools.oadev` computation at `taus=[1]` is abstracted as
the parameter `oadev1` (applied to the scaled data and the rate). When
`rate` is falsy the source executes `rate = len(data/duration)` where the
name `duration` is not bound anywhere in `get_arw` or the module, so a
`NameError` is raised before any deviation is computed; otherwise the result
is `dev[0]/60`. -/
def get_arw (oadev1 : List ℚ → ℚ → ℚ) (scale_factor : ℚ) (data : List ℚ)
    (rate : Option ℚ) : Except PyRuntimeError ℚ :=
  if pyTruthy rate then
    .ok (oadev1 (data.map (fun x => x * scale_factor)) (rate.getD 0) / 60)
  else
    .error (.nameError ("duration"))

/-! ## gyros.py — Gyro.detector (the data-collector thread)

The collector performs `data = daq.read(1, rate, asynchronous=True)` and then
loops: pull the next chunk (a blocking generator pull), write it to the
shared buffer at `tmb.iloc[i:next_i]`, and only then poll the stop flag.
We model the chunks the generator will deliver as a list (running out of
chunks models blocking forever inside `next(data)`), and the stop flag as a
function of the loop iteration at which it is polled. -/

/-- How the collector loop ends. -/
inductive DetOutcome where
  | returnedNoStop
  | maxDurationStop
  | blockedOnNext
deriving DecidableEq, Repr

/-- A finished (or blocked) collector run: the buffer writes it performed,
as (start index, chunk) pairs, and how it ended. -/
structure DetRun where
  writes : List (ℕ × List ℚ)
  outcome : DetOutcome
deriving DecidableEq, Repr

/-- One execution of the `while i < rate*max_duration` loop of
`Gyro.detector`, from buffer index `i` and iteration counter `j`:
pull a chunk, `break` to the max-duration exit if it would overflow the
buffer, otherwise write it and then poll the stop flag, returning without
`tmb.stop()` if it is set. Falling out of the loop (or breaking) notifies
the user and calls `tmb.stop()`. -/
def detector_loop (tmbLen bound : ℕ) (stopped : ℕ → Bool) :
    ℕ → ℕ → List (List ℚ) → DetRun
  | i, _, [] =>
    if i < bound then ⟨[], .blockedOnNext⟩ else ⟨[], .maxDurationStop⟩
  | i, j, c :: rest =>
    if i < bound then
      if i + c.length > tmbLen then ⟨[], .maxDurationStop⟩
      else if stopped j then ⟨[(i, c)], .returnedNoStop⟩
      else
        ⟨(i, c) :: (detector_loop tmbLen bound stopped (i + c.length) (j + 1) rest).writes,
          (detector_loop tmbLen bound stopped (i + c.length) (j + 1) rest).outcome⟩
    else ⟨[], .maxDurationStop⟩

/-- A full collector run of `Gyro.detector`: the loop from index `0`,
iteration counter `0`. `tmbLen` is `len(tmb)` and `bound` is
`rate * max_duration`. -/
def detector_run (tmbLen bound : ℕ) (stopped : ℕ → Bool)
    (chunks : List (List ℚ)) : DetRun :=
  detector_loop tmbLen bound stopped 0 0 chunks

/-! ## gyros.py — Gyro.adev_checker (the convergence-checker thread)

Each iteration of the `while True` loop sleeps `period` seconds, polls the
stop flag (returning if set), and then tries the Allan-deviation test on the
data collected so far. What the shared tombstone record yields at one poll is
an `AdevObs`: the polled stop flag together with the outcome of evaluating
`tmb.devs`, `tmb.drift_idx` and `tmb.drift` (the two `pyfog` error classes
are the caught exceptions). A checker execution is determined by the list of
observations at successive polls. -/

/-- Outcome of computing the Allan-deviation data of the tombstone record at
one poll: the deviation curve with the drift-floor index and drift-floor
minimum, or one of the two exceptions `adev_checker` catches. -/
inductive AdevOutcome where
  | ok (devs : List ℚ) (drift_idx : ℕ) (drift : ℚ)
  | insufficientSampleTime
  | insufficientSamplingRate

/-- One poll of the shared record: the stop flag as the checker reads it,
and the Allan-deviation outcome it would then compute. -/
abbrev AdevObs : Type := Bool × AdevOutcome

/-- The ratio `10*log10(max(tmb.devs[tmb.drift_idx:]) / tmb.drift)`, in
decibels, that `adev_checker` compares against its threshold. -/
noncomputable def ratio_db (devs : List ℚ) (drift_idx : ℕ) (drift : ℚ) : ℝ :=
  10 * Real.logb 10 ((pymax (devs.drop drift_idx) : ℝ) / (drift : ℝ))

/-- How a checker execution ends: user notification followed by
`tmb.stop()`, a plain return because the stop flag was already set, or the
observation list ran out with the loop still running. -/
inductive CheckerOutcome where
  | stoppedAfterNotify (msg : String)
  | returnedNoStop
  | stillPolling

/-- A finished checker execution: how it ended and how many `sleep(period)`
polls it performed. -/
structure CheckerRun where
  outcome : CheckerOutcome
  polls : ℕ

/-- The default polling period of `Gyro.adev_checker`, in seconds. -/
def adev_checker_default_period : ℚ := 5

/-- The default convergence threshold of `Gyro.adev_checker`, in decibels. -/
def adev_checker_default_threshold : ℝ := 5

open Classical in
/-- Model of the `while True` loop of `Gyro.adev_checker` over a list of
successive poll observations, with `n` polls already performed. Each listed
observation costs one `sleep(period)`; a set stop flag returns without
`tmb.stop()`; a converged ratio notifies `Reached ADev Min`, breaks, and
stops; `InsufficientSampleTimeError` is ignored and polling continues;
`InsufficientSamplingRateError` notifies and stops immediately. -/
noncomputable def adev_checker_loop (threshold : ℝ) :
    List AdevObs → ℕ → CheckerRun
  | [], n => ⟨.stillPolling, n⟩
  | (stopped, o) :: rest, n =>
    if stopped then ⟨.returnedNoStop, n + 1⟩
    else
      match o with
      | .ok devs idx drift =>
        if ratio_db devs idx drift > threshold then
          ⟨.stoppedAfterNotify ("Reached ADev Min"), n + 1⟩
        else adev_checker_loop threshold rest (n + 1)
      | .insufficientSampleTime => adev_checker_loop threshold rest (n + 1)
      | .insufficientSamplingRate =>
        ⟨.stoppedAfterNotify ("Sampling rate too small. Cannot resolve drift"), n + 1⟩

/-- Wall-clock time a checker run spends sleeping: the number of polls times
the fixed polling period. -/
def checker_elapsed (period : ℚ) (run : CheckerRun) : ℚ :=
  period * run.polls

/-- An observation on which one checker iteration neither returns nor stops
the run: the flag is unset and the outcome is either a non-converged ratio
or `InsufficientSampleTimeError`. -/
def nonTerminalObs (threshold : ℝ) : AdevObs → Prop
  | (stopped, .ok devs idx drift) =>
      stopped = false ∧ ¬ ratio_db devs idx drift > threshold
  | (stopped, .insufficientSampleTime) => stopped = false
  | (_, .insufficientSamplingRate) => False

end Gyro

/-! ## data_acquisition_units.py — NI_9215 -/

namespace NI_9215

/-- Rows of `numpy.reshape(-1, n)` taken greedily: `m` chunks of `n`
consecutive elements. -/
def chunkRows (n : ℕ) : ℕ → List ℚ → List (List ℚ)
  | 0, _ => []
  | m + 1, l => l.take n :: chunkRows n m (l.drop n)

/-- Model of `numpy.reshape(-1, n)` on a flat array: the row count is
inferred as `len / n` (the reshape is only legal when `n` divides the
length, which `FOG_DAQ_Task.run` guarantees). -/
def pyreshape_rows (n : ℕ) (l : List ℚ) : List (List ℚ) :=
  chunkRows n (l.length / n) l

/-- Model of the data produced by one `FOG_DAQ_Task.run` callback: the raw
hardware samples are scaled by `raw/10 * max_voltage`, reshaped into rows of
`osr` (the oversampling ratio) consecutive samples, and each row is averaged.
This is the chunk pushed onto the queue in asynchronous mode. -/
def FOG_DAQ_run (raw : List ℚ) (osr : ℕ) (max_voltage : ℚ) : List ℚ :=
  (pyreshape_rows osr (raw.map (fun x => x / 10 * max_voltage))).map mean

/-- What `NI_9215.read` hands back to the caller: the data array from a
completed synchronous run, or a generator over the chunk queue. -/
inductive ReadReturn where
  | syncArray (data : List ℚ)
  | asyncGenerator

/-- Model of the return value of `NI_9215.read`: with `asynchronous=True` a
generator over the queue is returned immediately; otherwise the task is run
to completion and the data array is returned. -/
def read (asynchronous : Bool) (raw : List ℚ) (osr : ℕ) (max_voltage : ℚ) :
    ReadReturn :=
  if asynchronous then .asyncGenerator
  else .syncArray (FOG_DAQ_run raw osr max_voltage)

/-- One `next()` on the generator `gen(q)`: a blocking `q.get()` with no
timeout, modelled on the queue contents: `none` when the queue is empty (the
caller blocks indefinitely, no timeout value exists), otherwise the front
chunk and the remaining queue. -/
def gen_next (q : List (List ℚ)) : Option (List ℚ × List (List ℚ)) :=
  match q with
  | [] => none
  | c :: rest => some (c, rest)

end NI_9215

/-! ## gyros.py — instrument-state frame effects of the calibration routines

The mutable instrument settings the calibration routines touch, as one
record: lock-in sensitivity, time constant and reference phase, and rotation
stage velocity and angle. `cw`/`ccw` are relative moves, so `cw` adds the
commanded angle to the current stage angle. `lia.autophase()` is the
external SR844 auto-phase command; the reference phase it lands on is kept
abstract as a parameter. -/

/-- The instrument settings visible to the gyro calibration routines. -/
structure LabState where
  lia_sensitivity : ℚ
  lia_time_constant : ℚ
  lia_phase : ℚ
  rot_velocity : ℚ
  rot_angle : ℚ
deriving DecidableEq, Repr

namespace LabState

/-- Setter `lia.sensitivity = v`. -/
def setSensitivity (v : ℚ) (s : LabState) : LabState := { s with lia_sensitivity := v }

/-- Setter `lia.time_constant = v`. -/
def setTimeConstant (v : ℚ) (s : LabState) : LabState := { s with lia_time_constant := v }

/-- Setter `rot.velocity = v`. -/
def setVelocity (v : ℚ) (s : LabState) : LabState := { s with rot_velocity := v }

/-- Setter `rot.angle = v` (absolute move). -/
def setAngle (v : ℚ) (s : LabState) : LabState := { s with rot_angle := v }

/-- Effect of `rot.cw(val)`: a relative clockwise move through `val`
degrees. -/
def rotCw (val : ℚ) (s : LabState) : LabState := { s with rot_angle := s.rot_angle + val }

/-- Effect of `rot.ccw(val)`: the source body is `cw(-val)`. -/
def rotCcw (val : ℚ) (s : LabState) : LabState := rotCw (-val) s

/-- Effect of `lia.autophase()`: the lock-in sets its reference phase to
whatever value `p` puts the signal in the X quadrature. -/
def liaAutophase (p : ℚ) (s : LabState) : LabState := { s with lia_phase := p }

end LabState

namespace Gyro

open LabState

/-- Instrument-state effect of `Gyro.autophase(sensitivity, velocity)`: save
sensitivity and velocity, set both, record the start angle, rotate `ccw(2)`,
run `lia.autophase()` (landing on phase `p`), restore velocity and
sensitivity, and move back to the start angle. -/
def autophase_fx (sensitivity velocity p : ℚ) (s0 : LabState) : LabState :=
  let tmp_sensitivity := s0.lia_sensitivity
  let tmp_velocity := s0.rot_velocity
  let s1 := setVelocity velocity s0
  let s2 := setSensitivity sensitivity s1
  let start_angle := s2.rot_angle
  let s3 := rotCcw 2 s2
  let s4 := liaAutophase p s3
  let s5 := setVelocity tmp_velocity s4
  let s6 := setSensitivity tmp_sensitivity s5
  setAngle start_angle s6

/-- Instrument-state effect of `Gyro.get_scale_factor(sensitivity, velocity)`:
save and set sensitivity, save the time constant and set it to `0.01`, save
and set the stage velocity, rotate `ccw(velocity*4.5)` then
`cw(velocity*4.5)` around the two reads, and restore time constant,
sensitivity and velocity. -/
def get_scale_factor_fx (sensitivity velocity : ℚ) (s0 : LabState) : LabState :=
  let cal_sensitivity := s0.lia_sensitivity
  let s1 := setSensitivity sensitivity s0
  let cal_integration_time := s1.lia_time_constant
  let s2 := setTimeConstant (1 / 100) s1
  let cal_velocity := s2.rot_velocity
  let s3 := setVelocity velocity s2
  let s4 := rotCcw (velocity * (9 / 2)) s3
  let s5 := rotCw (velocity * (9 / 2)) s4
  let s6 := setTimeConstant cal_integration_time s5
  let s7 := setSensitivity cal_sensitivity s6
  setVelocity cal_velocity s7

/-- Value returned by `Gyro.get_scale_factor`, as a function of the two mean
lock-in readings: `volt_seconds_per_degree = (mean ccw - mean cw)/2 /
cos(pitch*pi/180) / velocity`, `volt_hours_per_degree = that / 3600`, result
`1 / volt_hours_per_degree` in degrees per hour per volt. -/
noncomputable def get_scale_factor_value (ccw_data cw_data : List ℝ)
    (pitch velocity : ℝ) : ℝ :=
  let volt_seconds_per_degree :=
    (mean ccw_data - mean cw_data) / 2 / Real.cos (pitch * Real.pi / 180) / velocity
  let volt_hours_per_degree := volt_seconds_per_degree / 3600
  1 / volt_hours_per_degree

end Gyro

/-! ## Theorems -/

/-- Claim C9: for every angle `val` and every value of the background flag,
`NSC_A1.ccw(val, background)` performs exactly the same operation as
`NSC_A1.cw(-val, background)`: counterclockwise rotation is clockwise
rotation through the negated angle. -/
theorem NSC_A1_ccw_eq_cw_neg : ∀ (val : ℚ) (background : Bool),
    NSC_A1.ccw val background = NSC_A1.cw (-val) background :=
  fun _ _ => rfl

/-- Claim C5: `Gyro.get_scale_factor` returns
`2 * 3600 * velocity * cos(pitch * pi / 180) / (mean ccw - mean cw)`,
the scale factor in degrees per hour per volt obtained by comparing the mean
lock-in outputs of the counterclockwise and clockwise rotations. -/
theorem get_scale_factor_value_eq (ccw_data cw_data : List ℝ)
    (pitch velocity : ℝ) :
    Gyro.get_scale_factor_value ccw_data cw_data pitch velocity =
      2 * 3600 * velocity * Real.cos (pitch * Real.pi / 180) /
        (mean ccw_data - mean cw_data) := by
  simp only [Gyro.get_scale_factor_value, div_eq_mul_inv, mul_inv, inv_inv, one_mul]
  ring

/-- Claim C6: values outside the vendor-manual limits make the setters raise
a `ValueError` with a descriptive message, and no command is written to the
instrument: SR844 phase outside [-180, 180] degrees, Agilent 33250A
frequency below 1 µHz or above 80 MHz for SIN/SQU waveforms, and Agilent
33250A duty cycle outside [0, 100] percent. -/
theorem setter_range_checks (val : ℚ) (wf : String) :
    (val > 180 ∨ val < -180 →
      SRS_SR844.phase_set val =
        .error ("Phase must be between -180 and 180 degrees"))
    ∧ (val < 1 / 1000000 →
      Agilent_33250A.frequency_set wf val = .error ("Minimum frequency is 1µHz"))
    ∧ ((wf = "SIN" ∨ wf = "SQU") → val > 80000000 →
      Agilent_33250A.frequency_set wf val =
        .error ("Max frequency is 80 MHz for " ++ wf ++ " waves"))
    ∧ (val > 100 ∨ val < 0 →
      Agilent_33250A.duty_cycle_set val =
        .error ("Invalid duty cycle value given")) := by
  refine ⟨fun h => ?_, fun h => ?_, fun hwf h => ?_, fun h => ?_⟩
  · rw [SRS_SR844.phase_set, if_pos h]
  · rw [Agilent_33250A.frequency_set, if_pos h]
  · rw [Agilent_33250A.frequency_set, if_neg (by push_neg; linarith),
      if_pos ⟨hwf, h⟩]
  · rw [Agilent_33250A.duty_cycle_set, if_pos h]

/-- Witness for claim C6 at concrete out-of-range inputs. -/
theorem setter_range_checks_witness :
    SRS_SR844.phase_set 200 =
      .error ("Phase must be between -180 and 180 degrees")
    ∧ Agilent_33250A.frequency_set "SIN" (1 / 2000000) =
      .error ("Minimum frequency is 1µHz")
    ∧ Agilent_33250A.frequency_set "SIN" 90000000 =
      .error ("Max frequency is 80 MHz for " ++ "SIN" ++ " waves")
    ∧ Agilent_33250A.duty_cycle_set 101 =
      .error ("Invalid duty cycle value given") :=
  ⟨(setter_range_checks 200 "SIN").1 (by norm_num),
   (setter_range_checks (1 / 2000000) "SIN").2.1 (by norm_num),
   (setter_range_checks 90000000 "SIN").2.2.1 (Or.inl rfl) (by norm_num),
   (setter_range_checks 101 "SIN").2.2.2 (by norm_num)⟩

/-- Claim C10: every call to `Gyro.get_arw` with `rate` omitted (or falsy)
fails with an unbound-variable `NameError` on the name `duration` before any
angular-random-walk value is computed; a value is returned only when a
truthy rate is passed explicitly. -/
theorem get_arw_unbound_duration (oadev1 : List ℚ → ℚ → ℚ)
    (scale_factor : ℚ) (data : List ℚ) :
    Gyro.get_arw oadev1 scale_factor data none =
      .error (.nameError ("duration"))
    ∧ ∀ r : ℚ, Gyro.get_arw oadev1 scale_factor data (some r) =
        if r ≠ 0 then
          .ok (oadev1 (data.map (fun x => x * scale_factor)) r / 60)
        else .error (.nameError ("duration")) := by
  constructor
  · rfl
  · intro r
    by_cases h : r = 0 <;> simp [Gyro.get_arw, pyTruthy, h]

/-- Helper: a Python-truthiness guarded term equals the plain `getD 0`
value, since the falsy numeric cases contribute zero anyway. -/
theorem truthy_getD_mul (o : Option ℚ) (k : ℚ) :
    (if pyTruthy o then o.getD 0 * k else 0) = o.getD 0 * k := by
  rcases o with _ | x
  · simp [pyTruthy]
  · by_cases h : x = 0 <;> simp [pyTruthy, h]

/-- Claim C4: `Gyro.tombstone` computes the requested duration as
`seconds + 60*minutes + 3600*hours`; a nonzero duration yields a single
synchronous blocking read of exactly that duration, while a zero duration
immediately yields an open-ended record with `rate * max_duration` NaN
samples (rate defaulting to 10 Hz, max_duration to 86400 s) and exactly two
background threads: a data collector and an Allan-deviation checker. -/
theorem tombstone_spec (seconds minutes hours rate max_duration : Option ℚ) :
    Gyro.tombstone_duration seconds minutes hours
      = seconds.getD 0 + 60 * minutes.getD 0 + 3600 * hours.getD 0
    ∧ (Gyro.tombstone_duration seconds minutes hours ≠ 0 →
        Gyro.tombstone seconds minutes hours rate max_duration =
          .sync (Gyro.tombstone_duration seconds minutes hours) rate)
    ∧ (Gyro.tombstone_duration seconds minutes hours = 0 →
        Gyro.tombstone seconds minutes hours rate max_duration =
          .async ((if pyTruthy rate then rate.getD 0 else 10) *
              (if pyTruthy max_duration then max_duration.getD 0 else 86400))
            (if pyTruthy rate then rate.getD 0 else 10)
            (if pyTruthy max_duration then max_duration.getD 0 else 86400)
            [.detectorThread (if pyTruthy rate then rate.getD 0 else 10)
                (if pyTruthy max_duration then max_duration.getD 0 else 86400),
              .adevCheckerThread]) := by
  refine ⟨?_, fun h => ?_, fun h => ?_⟩
  · have hs := truthy_getD_mul seconds 1
    have hm := truthy_getD_mul minutes 60
    have hh := truthy_getD_mul hours 3600
    rw [mul_one] at hs
    rw [Gyro.tombstone_duration, hs, hm, hh]
    ring
  · rw [Gyro.tombstone, if_pos h]
  · rw [Gyro.tombstone, if_neg (fun hn => hn h)]
    by_cases hr : pyTruthy rate <;> by_cases hm : pyTruthy max_duration <;>
      norm_num [hr, hm, mul_comm]

/-- Witness for claim C4: a 60-second call runs synchronously, a call with
no duration arguments runs asynchronously with the default rate and maximum
duration and the two background threads. -/
theorem tombstone_spec_witness :
    Gyro.tombstone (some 60) none none none none = .sync 60 none
    ∧ Gyro.tombstone none none none none none =
        .async (10 * 86400) 10 86400
          [.detectorThread 10 86400, .adevCheckerThread] := by
  constructor
  · have h60 : Gyro.tombstone_duration (some 60) none none = 60 := by
      norm_num [Gyro.tombstone_duration, pyTruthy]
    have h := (tombstone_spec (some 60) none none none none).2.1
      (by rw [h60]; norm_num)
    rw [h60] at h
    exact h
  · have h := (tombstone_spec none none none none none).2.2
      (by norm_num [Gyro.tombstone_duration, pyTruthy])
    simpa [pyTruthy] using h

/-- Claim C8 (amended): `Gyro.get_scale_factor` restores every modeled
instrument setting — lock-in sensitivity and time constant, stage velocity,
and (via the cancelling ccw/cw moves) the stage angle; `Gyro.autophase`
restores the sensitivity, the velocity and the starting angle, but leaves
the lock-in reference phase at the value `lia.autophase()` selected — the
phase change is the one setting the routine does not undo. -/
theorem calibration_frame_effects (sensitivity velocity p : ℚ) (s0 : LabState) :
    Gyro.get_scale_factor_fx sensitivity velocity s0 = s0
    ∧ Gyro.autophase_fx sensitivity velocity p s0 = { s0 with lia_phase := p } := by
  constructor
  · cases s0
    simp [Gyro.get_scale_factor_fx, LabState.setSensitivity,
      LabState.setTimeConstant, LabState.setVelocity, LabState.rotCcw,
      LabState.rotCw, LabState.setAngle]
  · cases s0
    simp [Gyro.autophase_fx, LabState.setSensitivity, LabState.setVelocity,
      LabState.rotCcw, LabState.rotCw, LabState.liaAutophase, LabState.setAngle]

/-- Counterexample for claim C8 as stated: after `Gyro.autophase` the
lock-in reference phase differs from its value on entry, so the routine does
change an instrument setting other than the restored sensitivity, velocity
and angle. -/
theorem autophase_changes_lia_phase :
    (Gyro.autophase_fx (3 / 100) 1 90 ⟨1, 1, 0, 1, 0⟩).lia_phase ≠
      (⟨1, 1, 0, 1, 0⟩ : LabState).lia_phase := by
  decide

/-- Helper for claim C2: a bound on the collector writes once the stop flag
reads true from check index `k` on: every iteration past the first check
with the flag set returns, so the write count never exceeds `k - j + 1`
starting from iteration counter `j`. -/
theorem detector_loop_writes_le (tmbLen bound k : ℕ) (stopped : ℕ → Bool)
    (hstop : ∀ m, k ≤ m → stopped m = true) :
    ∀ (chunks : List (List ℚ)) (i j : ℕ),
      (Gyro.detector_loop tmbLen bound stopped i j chunks).writes.length
        ≤ (k - j) + 1 := by
  intro chunks
  induction chunks with
  | nil =>
    intro i j
    simp only [Gyro.detector_loop]
    split <;> simp
  | cons c rest ih =>
    intro i j
    simp only [Gyro.detector_loop]
    split
    · split
      · simp
      · split
        · simp
        · have hjk : j < k := by
            rcases Nat.lt_or_ge j k with h | h
            · exact h
            · rename_i hs
              exact absurd (hstop j h) hs
          have hrec := ih (i + c.length) (j + 1)
          simp only [List.length_cons]
          omega
    · simp

/-- Counterexample for claim C2 as stated: the collector polls the stop flag
only after completing a chunk write, so even when the flag is set before the
run starts (here the flag reads true at every check), the collector still
performs a write to the shared buffer before terminating. -/
theorem detector_writes_after_stop :
    (Gyro.detector_run 10 5 (fun _ => true) [[(0 : ℚ)]]).writes
      = [(0, [(0 : ℚ)])] := rfl

/-- Helper for claim C2: once the stop flag reads true from check index `k`
on, the collector loop started at iteration counter `j` never consumes a
chunk beyond the first `k - j + 1`: every later iteration is unreachable, so
the run is unchanged when the chunk stream is truncated there. -/
theorem detector_loop_take (tmbLen bound k : ℕ) (stopped : ℕ → Bool)
    (hstop : ∀ m, k ≤ m → stopped m = true) :
    ∀ (chunks : List (List ℚ)) (i j : ℕ),
      Gyro.detector_loop tmbLen bound stopped i j chunks =
        Gyro.detector_loop tmbLen bound stopped i j (chunks.take (k - j + 1)) := by
  intro chunks
  induction chunks with
  | nil => intro i j; rw [List.take_nil]
  | cons c rest ih =>
    intro i j
    rw [show k - j + 1 = (k - j) + 1 from rfl, List.take_succ_cons]
    by_cases hib : i < bound
    · simp only [Gyro.detector_loop, if_pos hib]
      by_cases hover : i + c.length > tmbLen
      · rw [if_pos hover, if_pos hover]
      · rw [if_neg hover, if_neg hover]
        by_cases hs : stopped j = true
        · rw [if_pos hs, if_pos hs]
        · have hjk : j < k := by
            rcases Nat.lt_or_ge j k with h | h
            · exact h
            · exact absurd (hstop j h) hs
          rw [if_neg hs, if_neg hs,
            ih (i + c.length) (j + 1),
            show k - j = k - (j + 1) + 1 by omega]
    · simp only [Gyro.detector_loop, if_neg hib]

/-- Claim C2 (amended): once the stop flag is set — reading true from its
`k`-th check onward — the data collector performs at most one further chunk
write (at most `k + 1` writes in total, since it polls the flag only after
each write); its loop runs no iteration past the first post-flag check, the
run being already determined by the first `k + 1` chunks; and when the flag
is set at every check and the pending generator pull yields a chunk that
fits the buffer, the collector terminates by returning right after that
single write (when no chunk ever arrives it stays blocked in the no-timeout
pull, and an overflowing chunk or an exhausted duration bound ends the run
through the notify-and-stop exit instead). The checker thread terminates at
its next poll, returning without notifying or stopping. -/
theorem stop_flag_stops_threads (tmbLen bound k : ℕ) (stopped : ℕ → Bool)
    (chunks : List (List ℚ)) (hstop : ∀ m, k ≤ m → stopped m = true) :
    (Gyro.detector_run tmbLen bound stopped chunks).writes.length ≤ k + 1
    ∧ Gyro.detector_run tmbLen bound stopped chunks =
        Gyro.detector_run tmbLen bound stopped (chunks.take (k + 1))
    ∧ ((∀ m, stopped m = true) → ∀ (c : List ℚ) (rest : List (List ℚ)),
        0 < bound → c.length ≤ tmbLen →
        Gyro.detector_run tmbLen bound stopped (c :: rest) =
          ⟨[(0, c)], .returnedNoStop⟩)
    ∧ ∀ (threshold : ℝ) (o : Gyro.AdevOutcome) (rest : List Gyro.AdevObs) (n : ℕ),
        Gyro.adev_checker_loop threshold ((true, o) :: rest) n =
          ⟨.returnedNoStop, n + 1⟩ := by
  refine ⟨?_, ?_, ?_, ?_⟩
  · have h := detector_loop_writes_le tmbLen bound k stopped hstop chunks 0 0
    simpa using h
  · have h := detector_loop_take tmbLen bound k stopped hstop chunks 0 0
    simpa [Gyro.detector_run] using h
  · intro hall c rest hbound hfit
    rw [Gyro.detector_run, Gyro.detector_loop, if_pos hbound,
      if_neg (by omega), if_pos (hall 0)]
  · intro threshold o rest n
    simp [Gyro.adev_checker_loop]

/-- Witness for claim C2 (amended) with the flag set from the very first
check: the single pending chunk is written once and the collector returns;
the run is determined by that first chunk alone. -/
theorem stop_flag_stops_threads_witness :
    (Gyro.detector_run 10 5 (fun _ => true) [[(0 : ℚ)]]).writes.length ≤ 0 + 1
    ∧ Gyro.detector_run 10 5 (fun _ => true) ([(0 : ℚ)] :: []) =
        ⟨[(0, [(0 : ℚ)])], .returnedNoStop⟩ := by
  have h := stop_flag_stops_threads 10 5 0 (fun _ => true) [[(0 : ℚ)]]
    (fun _ _ => rfl)
  exact ⟨h.1, h.2.2.1 (fun _ => rfl) [(0 : ℚ)] [] (by decide) (by decide)⟩

/-- Claim C3: an `InsufficientSampleTimeError` during the Allan-deviation
computation is treated as not-yet-converged — the checker neither raises nor
stops the run and polling continues — while an
`InsufficientSamplingRateError` makes the checker notify the user of the
failure and signal stop immediately. -/
theorem adev_checker_error_handling :
    (∀ (threshold : ℝ) (rest : List Gyro.AdevObs) (n : ℕ),
      Gyro.adev_checker_loop threshold
          ((false, .insufficientSampleTime) :: rest) n =
        Gyro.adev_checker_loop threshold rest (n + 1))
    ∧ ∀ (threshold : ℝ) (rest : List Gyro.AdevObs) (n : ℕ),
      Gyro.adev_checker_loop threshold
          ((false, .insufficientSamplingRate) :: rest) n =
        ⟨.stoppedAfterNotify ("Sampling rate too small. Cannot resolve drift"),
          n + 1⟩ := by
  constructor <;> intro threshold rest n <;> simp [Gyro.adev_checker_loop]

/-- Helper for claim C1: running the checker loop across any run of
non-terminal observations followed by a converged one ends with the
convergence notification and stop, after one poll per observation
consumed. -/
theorem adev_checker_loop_first_convergence (threshold : ℝ) (devs : List ℚ)
    (idx : ℕ) (drift : ℚ)
    (hconv : Gyro.ratio_db devs idx drift > threshold) :
    ∀ (pre : List Gyro.AdevObs),
      (∀ x ∈ pre, Gyro.nonTerminalObs threshold x) →
      ∀ (rest : List Gyro.AdevObs) (n : ℕ),
        Gyro.adev_checker_loop threshold
            (pre ++ (false, .ok devs idx drift) :: rest) n =
          ⟨.stoppedAfterNotify ("Reached ADev Min"), n + pre.length + 1⟩ := by
  intro pre
  induction pre with
  | nil =>
    intro _ rest n
    simp [Gyro.adev_checker_loop, hconv]
  | cons x tl ih =>
    intro hpre rest n
    obtain ⟨b, o⟩ := x
    have hx := hpre (b, o) (List.mem_cons_self _ _)
    have htl := fun y hy => hpre y (List.mem_cons_of_mem _ hy)
    cases o with
    | ok d i dr =>
      obtain ⟨hb, hno⟩ := hx
      subst hb
      simp only [List.cons_append, Gyro.adev_checker_loop,
        Bool.false_eq_true, if_false, List.append_eq]
      rw [if_neg hno, ih htl rest (n + 1)]
      simp only [Gyro.CheckerRun.mk.injEq, List.length_cons]
      exact ⟨trivial, by omega⟩
    | insufficientSampleTime =>
      have hb : b = false := hx
      subst hb
      simp only [List.cons_append, Gyro.adev_checker_loop,
        Bool.false_eq_true, if_false, List.append_eq]
      rw [ih htl rest (n + 1)]
      simp only [Gyro.CheckerRun.mk.injEq, List.length_cons]
      exact ⟨trivial, by omega⟩
    | insufficientSamplingRate =>
      exact hx.elim

/-- Claim C1: the asynchronous checker polls once per fixed period (default
5 seconds); at the first poll where the decibel ratio
`10*log10(max(devs[drift_idx:]) / drift)` exceeds the threshold (default
5 dB) — after any run of polls with the flag unset and a non-converged or
insufficient-sample-time outcome — it notifies `Reached ADev Min` and
signals stop on the shared record, having slept `period` seconds per poll
performed. -/
theorem adev_checker_convergence_spec (threshold : ℝ)
    (pre rest : List Gyro.AdevObs) (devs : List ℚ) (idx : ℕ) (drift : ℚ)
    (hpre : ∀ x ∈ pre, Gyro.nonTerminalObs threshold x)
    (hconv : Gyro.ratio_db devs idx drift > threshold) :
    Gyro.adev_checker_loop threshold
        (pre ++ (false, .ok devs idx drift) :: rest) 0 =
      ⟨.stoppedAfterNotify ("Reached ADev Min"), pre.length + 1⟩
    ∧ (∀ period : ℚ,
        Gyro.checker_elapsed period
            (Gyro.adev_checker_loop threshold
              (pre ++ (false, .ok devs idx drift) :: rest) 0) =
          period * (pre.length + 1))
    ∧ Gyro.adev_checker_default_period = 5
    ∧ Gyro.adev_checker_default_threshold = 5 := by
  have h := adev_checker_loop_first_convergence threshold devs idx drift hconv
    pre hpre rest 0
  rw [Nat.zero_add] at h
  refine ⟨h, fun period => ?_, rfl, rfl⟩
  rw [h, Gyro.checker_elapsed]
  push_cast
  ring

/-- Witness for claim C1: a first poll with too little data, then a poll
whose deviation curve `[100]` with drift floor `1` gives a 20 dB ratio,
beyond the 5 dB threshold: the checker notifies and stops at that second
poll. -/
theorem adev_checker_convergence_spec_witness :
    Gyro.adev_checker_loop 5
        ([(false, .insufficientSampleTime)] ++ (false, .ok [100] 0 1) :: []) 0 =
      ⟨.stoppedAfterNotify ("Reached ADev Min"), 2⟩ := by
  have hconv : Gyro.ratio_db [100] 0 1 > 5 := by
    have hval : Gyro.ratio_db [100] 0 1 = 10 * Real.logb 10 100 := by
      norm_num [Gyro.ratio_db, pymax]
    have hlogb : Real.logb 10 100 = 2 := by
      rw [show (100 : ℝ) = 10 ^ (2 : ℕ) by norm_num, Real.logb_pow,
        Real.logb_self_eq_one (by norm_num)]
      norm_num
    rw [hval, hlogb]
    norm_num
  have h := (adev_checker_convergence_spec 5 [(false, .insufficientSampleTime)]
    [] [100] 0 1
    (by
      intro x hx
      simp only [List.mem_singleton] at hx
      subst hx
      exact rfl)
    hconv).1
  simpa using h

/-- Helper for claim C7: `chunkRows n m l` always yields `m` rows. -/
theorem chunkRows_length (n : ℕ) : ∀ (m : ℕ) (l : List ℚ),
    (NI_9215.chunkRows n m l).length = m := by
  intro m
  induction m with
  | zero => intro l; rfl
  | succ m ih => intro l; simp [NI_9215.chunkRows, ih]

/-- Helper for claim C7: row `i` of `chunkRows n m l` is the `n`-element
slice of `l` starting at offset `i * n`. -/
theorem chunkRows_getD (n : ℕ) : ∀ (m i : ℕ) (l : List ℚ), i < m →
    (NI_9215.chunkRows n m l).getD i [] = (l.drop (i * n)).take n := by
  intro m
  induction m with
  | zero => intro i l h; omega
  | succ m ih =>
    intro i l hi
    cases i with
    | zero => simp [NI_9215.chunkRows]
    | succ i =>
      have h := ih i (l.drop n) (by omega)
      simp only [NI_9215.chunkRows, List.getD_cons_succ, h, List.drop_drop]
      rw [show n + i * n = (i + 1) * n by ring]

/-- Helper for claim C7: indexing through a `map mean` with the junk values
matched up (`mean [] = 0`). -/
theorem getD_map_mean : ∀ (l : List (List ℚ)) (i : ℕ),
    (l.map mean).getD i 0 = mean (l.getD i []) := by
  intro l
  induction l with
  | nil => intro i; simp [mean]
  | cons a tl ih =>
    intro i
    cases i with
    | zero => rfl
    | succ i => simpa using ih i

/-- Claim C7: with `asynchronous=True`, `NI_9215.read` returns a generator
instead of an array; a `next()` on it is a blocking queue pull with no
timeout (no value is produced while the queue is empty); and the chunk the
DAQ task pushes from `seconds*rate*osr` raw samples has exactly
`seconds*rate` entries, entry `i` being the average of the `i`-th
consecutive group of `osr` raw samples scaled by `max_voltage/10`. -/
theorem NI_read_async_chunks (seconds rate osr : ℕ) (raw : List ℚ) (maxV : ℚ)
    (hlen : raw.length = seconds * rate * osr) (hosr : 0 < osr) :
    NI_9215.read true raw osr maxV = .asyncGenerator
    ∧ (NI_9215.FOG_DAQ_run raw osr maxV).length = seconds * rate
    ∧ (∀ i, i < seconds * rate →
        (NI_9215.FOG_DAQ_run raw osr maxV).getD i 0 =
          mean (((raw.drop (i * osr)).take osr).map (fun x => x / 10 * maxV)))
    ∧ NI_9215.gen_next [] = none := by
  have hrows : (raw.map (fun x => x / 10 * maxV)).length / osr = seconds * rate := by
    rw [List.length_map, hlen, Nat.mul_div_cancel _ hosr]
  refine ⟨rfl, ?_, ?_, rfl⟩
  · rw [NI_9215.FOG_DAQ_run, NI_9215.pyreshape_rows, List.length_map,
      chunkRows_length, hrows]
  · intro i hi
    rw [NI_9215.FOG_DAQ_run, NI_9215.pyreshape_rows, getD_map_mean, hrows,
      chunkRows_getD osr (seconds * rate) i _ hi]
    congr 1
    rw [List.map_take, List.map_drop]

/-- Witness for claim C7: four raw samples at `osr = 2`, `max_voltage = 10`
give a two-sample chunk of pairwise averages. -/
theorem NI_read_async_chunks_witness :
    NI_9215.read true [1, 2, 3, 4] 2 10 = .asyncGenerator
    ∧ (NI_9215.FOG_DAQ_run [1, 2, 3, 4] 2 10).length = 1 * 2 := by
  have h := NI_read_async_chunks 1 2 2 [1, 2, 3, 4] 10 (by decide) (by decide)
  exact ⟨h.1, h.2.1⟩

end Hardware
